import Mathlib

/-!
# Verification of the resilient cache layer

Shallow embedding of `src/infrastructure/cache/cacheService.ts`, which holds
two implementations of the cache contract:

* `CacheService` — the in-process store backed by NodeCache
  (the spec's LocalCacheStore);
* `RedisCache` — the network-backed store with a connection-lifecycle state
  machine (the spec's RemoteCacheStore).

Values are modelled by a small JSON-like type `JVal`; `JSON.stringify` /
`JSON.parse` are modelled by `stringify` / `parseJson` on the fragment the
store actually produces.  TypeScript `null` and a parsed JSON `null` are the
same runtime value, so a remote `get` whose payload deserializes to `null`
is observationally "absent": the model returns `Option JVal` where `none`
stands for the TS `null`/`undefined` result and a parsed `jnull` collapses
into `none`, exactly as `return JSON.parse(data) as T` does for the caller
of `Promise<T | null>`.

Each remote operation takes a `fail : Bool` oracle meaning "the underlying
client call throws on this invocation" (the `catch` branch of the source),
and reports `connCalls`, the number of calls performed on the underlying
connection handle, so that degraded-mode claims about "no call on the
underlying connection" are statable.
-/

/-- JSON-like values stored in the caches. -/
inductive JVal where
  | jnull : JVal
  | jbool : Bool → JVal
  | jnum : Int → JVal
  | jstr : String → JVal
deriving DecidableEq, Repr

/-- `JSON.stringify` on the fragment of values the store handles. -/
def stringify : JVal → String
  | JVal.jnull => "null"
  | JVal.jbool true => "true"
  | JVal.jbool false => "false"
  | JVal.jnum n => toString n
  | JVal.jstr s => "\"" ++ s ++ "\""

/-- `JSON.parse`, modelled on the range of `stringify`; `none` is a thrown
`SyntaxError` (caught by the source and treated as a miss). -/
def parseJson (s : String) : Option JVal :=
  if s = "null" then some JVal.jnull
  else if s = "true" then some (JVal.jbool true)
  else if s = "false" then some (JVal.jbool false)
  else if s.startsWith "\"" && s.endsWith "\"" && decide (2 ≤ s.length) then
    some (JVal.jstr ((s.drop 1).dropRight 1))
  else
    match s.toInt? with
    | some n => some (JVal.jnum n)
    | none => none

/-- One key of the backing Redis store: the key, the serialized payload the
client holds for it, and the seconds-until-expiry it was last set with
(`setEx`'s second argument).  Redis never serves an expired key, so the
entry list models exactly the live keys. -/
structure RedisEntry where
  key : String
  payload : String
  expiry : Nat
deriving DecidableEq, Repr

/-- The live contents of the backing Redis store. -/
abbrev RedisStore := List RedisEntry

/-- `client.get key`: the payload Redis holds for `key`, if any. -/
def RedisStore.lookup (st : RedisStore) (key : String) : Option String :=
  (List.find? (fun e => e.key = key) st).map RedisEntry.payload

/-- `client.setEx key expiry payload`: replaces any previous entry. -/
def RedisStore.insert (st : RedisStore) (key payload : String) (expiry : Nat) :
    RedisStore :=
  ⟨key, payload, expiry⟩ :: List.filter (fun e => e.key ≠ key) st

/-- `client.del key`. -/
def RedisStore.remove (st : RedisStore) (key : String) : RedisStore :=
  List.filter (fun e => e.key ≠ key) st

/-- The mutable fields of the `RedisCache` class, plus two ghost
observables: `retryPending` records that a 5-second `setTimeout(() =>
this.connect(), …)` from `connect`'s catch branch is scheduled, and
`totalAttempts` counts every call performed so far on `client.connect()`.
`closed` records that the current client handle was quit (`isOpen ===
false`), and `reconnectionTimer` that the 30-second `setInterval` of
`startReconnection` is active. -/
structure RedisCacheState where
  isAvailable : Bool
  connectionAttempts : Nat
  reconnectionTimer : Bool
  retryPending : Bool
  closed : Bool
  totalAttempts : Nat
  conn : RedisStore
deriving DecidableEq, Repr

/-- `maxConnectionAttempts = 3`. -/
def maxConnectionAttempts : Nat := 3

/-- `defaultTtl = 3600`. -/
def defaultTtl : Nat := 3600

/-- Result of one cache operation: its return value, the state it leaves
behind, and how many calls it performed on the underlying connection. -/
structure OpResult (α : Type) where
  ret : α
  st : RedisCacheState
  connCalls : Nat
deriving Repr, DecidableEq

namespace RedisCache

/-- `RedisCache.get`.  Absent key and falsy payload return `null`; a parse
error is caught and returns `null`; a payload deserializing to JSON `null`
returns the value `null` itself, which the caller cannot tell from absent. -/
def get (s : RedisCacheState) (key : String) (fail : Bool) :
    OpResult (Option JVal) :=
  if !s.isAvailable then ⟨none, s, 0⟩
  else if fail then ⟨none, s, 1⟩
  else
    match s.conn.lookup key with
    | none => ⟨none, s, 1⟩
    | some data =>
      if data = "" then ⟨none, s, 1⟩
      else
        match parseJson data with
        | none => ⟨none, s, 1⟩
        | some v => ⟨if v = JVal.jnull then none else some v, s, 1⟩

/-- `RedisCache.set`.  `ttl || this.defaultTtl`: a zero (falsy) ttl is
replaced by the default, exactly like an omitted one. -/
def set (s : RedisCacheState) (key : String) (v : JVal) (ttl : Option Nat)
    (fail : Bool) : OpResult Bool :=
  if !s.isAvailable then ⟨false, s, 0⟩
  else
    let expiry := match ttl with
      | some t => if t ≠ 0 then t else defaultTtl
      | none => defaultTtl
    if fail then ⟨false, s, 1⟩
    else ⟨true, { s with conn := s.conn.insert key (stringify v) expiry }, 1⟩

/-- `RedisCache.delete`.  The count returned by `client.del` is discarded:
the method reports only that the attempt went through. -/
def delete (s : RedisCacheState) (key : String) (fail : Bool) :
    OpResult Bool :=
  if !s.isAvailable then ⟨false, s, 0⟩
  else if fail then ⟨false, s, 1⟩
  else ⟨true, { s with conn := s.conn.remove key }, 1⟩

/-- `RedisCache.has`: `(await this.client.exists(key)) === 1`. -/
def has (s : RedisCacheState) (key : String) (fail : Bool) : OpResult Bool :=
  if !s.isAvailable then ⟨false, s, 0⟩
  else if fail then ⟨false, s, 1⟩
  else ⟨(s.conn.lookup key).isSome, s, 1⟩

/-- `RedisCache.flush`: `client.flushAll()`, errors caught and logged. -/
def flush (s : RedisCacheState) (fail : Bool) : OpResult Unit :=
  if !s.isAvailable then ⟨(), s, 0⟩
  else if fail then ⟨(), s, 1⟩
  else ⟨(), { s with conn := ([] : RedisStore) }, 1⟩

/-- `RedisCache.isHealthy`. -/
def isHealthy (s : RedisCacheState) : Bool := s.isAvailable

/-- `RedisCache.startReconnection`: installs the recurring 30-second
`setInterval` unless one is already active. -/
def startReconnection (s : RedisCacheState) : RedisCacheState :=
  if s.reconnectionTimer then s else { s with reconnectionTimer := true }

/-- `RedisCache.stopReconnectionTimer`. -/
def stopReconnectionTimer (s : RedisCacheState) : RedisCacheState :=
  { s with reconnectionTimer := false }

/-- One run of `RedisCache.connect`, with `success` the outcome of the
`await this.client.connect()` call it performs (if it performs one).

The guard hands over to `startReconnection` when the bounded attempts are
exhausted.  Otherwise the attempt counter is incremented, a quit client is
replaced by a fresh one (`this.client.isOpen === false`), and the connect
is attempted (`totalAttempts` counts these calls).  On success the body and
the client's `connect` event listener together set `isAvailable`, reset the
counter and cancel the periodic timer; on failure either a 5-second
`setTimeout(() => this.connect(), …)` retry is scheduled or, when this was
the last bounded attempt, the periodic timer is started. -/
def connectStep (s : RedisCacheState) (success : Bool) : RedisCacheState :=
  if s.connectionAttempts ≥ maxConnectionAttempts then
    startReconnection s
  else
    let s1 := { s with
      connectionAttempts := s.connectionAttempts + 1
      closed := false
      totalAttempts := s.totalAttempts + 1 }
    if success then
      { s1 with isAvailable := true, connectionAttempts := 0,
                reconnectionTimer := false }
    else
      let s2 := { s1 with isAvailable := false }
      if s2.connectionAttempts < maxConnectionAttempts then
        { s2 with retryPending := true }
      else
        startReconnection s2

/-- The pending 5-second retry `setTimeout` fires: it simply calls
`connect` again. -/
def retryFire (s : RedisCacheState) (success : Bool) : RedisCacheState :=
  if s.retryPending then connectStep { s with retryPending := false } success
  else s

/-- One tick of the 30-second `setInterval` installed by
`startReconnection`: while not available it resets the attempt counter and
calls `connect`; a tick while available (or with no timer installed) does
nothing. -/
def intervalTick (s : RedisCacheState) (success : Bool) : RedisCacheState :=
  if s.reconnectionTimer && !s.isAvailable then
    connectStep { s with connectionAttempts := 0 } success
  else s

/-- The `client.on('error', …)` listener: only reacts while available —
drops availability and starts the periodic reconnection mode. -/
def errorEvent (s : RedisCacheState) : RedisCacheState :=
  if s.isAvailable then
    startReconnection { s with isAvailable := false }
  else s

/-- `RedisCache.disconnect`: stops the periodic timer and quits the client;
any error from `quit` is swallowed.  The 5-second retry `setTimeout` of
`connect`'s catch branch is never stored by the class, so `disconnect`
cannot and does not cancel it: `retryPending` is left as it was. -/
def disconnect (s : RedisCacheState) : RedisCacheState :=
  { stopReconnectionTimer s with closed := true }

/-- The state right after the constructor's field initializers, before the
`this.connect()` call it ends with. -/
def initialState : RedisCacheState :=
  { isAvailable := false
    connectionAttempts := 0
    reconnectionTimer := false
    retryPending := false
    closed := false
    totalAttempts := 0
    conn := ([] : RedisStore) }

end RedisCache

/-- One entry of the NodeCache backing the local `CacheService`: the key,
the stored value (held by reference, `useClones: false`), and the
seconds-until-expiry it was stored with.  An expired entry is logically
absent, and NodeCache's lazy expiry means the entry list models exactly the
live keys. -/
structure LocalEntry where
  key : String
  value : JVal
  ttl : Nat
deriving DecidableEq, Repr

/-- The local store's contents. -/
abbrev LocalCache := List LocalEntry

namespace CacheService

/-- `CacheService.get`: `this.cache.get(key)`, `none` = `undefined`. -/
def get (c : LocalCache) (key : String) : Option JVal :=
  (List.find? (fun e => e.key = key) c).map LocalEntry.value

/-- `CacheService.set`: `this.cache.set(key, value, ttl ?? 3600)`.  Note
that `??` replaces only an omitted argument — an explicit `0` is kept (for
NodeCache, ttl `0` means no expiry) — and that the `stdTTL: 300` the
NodeCache was constructed with is never consulted, since `set` always
passes an explicit ttl.  NodeCache's `set` reports success. -/
def set (c : LocalCache) (key : String) (v : JVal) (ttl : Option Nat) :
    Bool × LocalCache :=
  (true, ⟨key, v, ttl.getD 3600⟩ :: List.filter (fun e => e.key ≠ key) c)

/-- `CacheService.delete`: `this.cache.del(key)` returns the number of
deleted entries (0 or 1, keys being unique). -/
def delete (c : LocalCache) (key : String) : Nat × LocalCache :=
  ((if (List.find? (fun e => e.key = key) c).isSome then 1 else 0),
   List.filter (fun e => e.key ≠ key) c)

/-- `CacheService.has`: `this.cache.has(key)`. -/
def has (c : LocalCache) (key : String) : Bool :=
  (List.find? (fun e => e.key = key) c).isSome

/-- `CacheService.getOrSet`: returns the cached value when `get` is not
`undefined`; otherwise runs the callback, stores its result with `set`
(whose boolean result is discarded) and returns it.  The third component
counts the invocations of the callback. -/
def getOrSet (c : LocalCache) (key : String) (callback : Unit → JVal)
    (ttl : Option Nat) : JVal × LocalCache × Nat :=
  match get c key with
  | some v => (v, c, 0)
  | none =>
    let v := callback ()
    (v, (set c key v ttl).2, 1)

/-- `CacheService.flush`: `this.cache.flushAll()`. -/
def flush (_ : LocalCache) : LocalCache := ([] : LocalCache)

end CacheService

/-- A payload is good when it is non-empty and deserializes to a non-null
JSON value — the shape every payload produced by `RedisCache.set` for a
non-null value has. -/
def goodPayload (p : String) : Bool :=
  p != "" && (match parseJson p with
    | some v => v != JVal.jnull
    | none => false)

/-! ## Concrete states used in witnesses and counterexamples -/

/-- A connected store with empty contents. -/
def connectedEmpty : RedisCacheState :=
  { RedisCache.initialState with
    isAvailable := true }

/-- A connected store holding one key with the serialized payload
`"true"`. -/
def connectedOne : RedisCacheState :=
  { RedisCache.initialState with
    isAvailable := true
    conn := [⟨"k", "true", 3600⟩] }

/-- A store about to run its last bounded attempt: two attempts already
failed. -/
def twoFailedState : RedisCacheState :=
  { RedisCache.initialState with
    connectionAttempts := 2
    totalAttempts := 2 }

/-- A store whose bounded-retry phase is exhausted and whose periodic
reconnection timer is active. -/
def exhaustedState : RedisCacheState :=
  { RedisCache.initialState with
    connectionAttempts := 3
    reconnectionTimer := true
    totalAttempts := 3 }

/-! ## Theorems -/

/-- C1: every cache operation of the RemoteCacheStore invoked while the
store is not available returns its fallback (`get` absent, `set`/`delete`/
`has` `false`, `flush` plain return), leaves the state untouched, and
performs no call on the underlying connection handle. -/
theorem degraded_mode_fallback (s : RedisCacheState) (key : String)
    (v : JVal) (ttl : Option Nat) (fail : Bool)
    (h : s.isAvailable = false) :
    RedisCache.get s key fail = ⟨none, s, 0⟩ ∧
    RedisCache.set s key v ttl fail = ⟨false, s, 0⟩ ∧
    RedisCache.delete s key fail = ⟨false, s, 0⟩ ∧
    RedisCache.has s key fail = ⟨false, s, 0⟩ ∧
    RedisCache.flush s fail = ⟨(), s, 0⟩ := by
  simp [RedisCache.get, RedisCache.set, RedisCache.delete, RedisCache.has,
    RedisCache.flush, h]

/-- Witness for C1: the freshly constructed (not yet connected) store. -/
theorem degraded_mode_fallback_witness :
    RedisCache.initialState.isAvailable = false ∧
    (RedisCache.get RedisCache.initialState "k" false =
        ⟨none, RedisCache.initialState, 0⟩ ∧
      RedisCache.set RedisCache.initialState "k" (JVal.jnum 1) none false =
        ⟨false, RedisCache.initialState, 0⟩ ∧
      RedisCache.delete RedisCache.initialState "k" false =
        ⟨false, RedisCache.initialState, 0⟩ ∧
      RedisCache.has RedisCache.initialState "k" false =
        ⟨false, RedisCache.initialState, 0⟩ ∧
      RedisCache.flush RedisCache.initialState false =
        ⟨(), RedisCache.initialState, 0⟩) :=
  ⟨rfl, degraded_mode_fallback RedisCache.initialState "k" (JVal.jnum 1)
    none false rfl⟩

/-- C5: an operation that fails while the store is Connected returns its
documented fallback and leaves the whole state unchanged — in particular
`isAvailable` stays `true`, `connectionAttempts` is unmodified and no
reconnection timer is started by the failing operation. -/
theorem per_operation_failure_no_transition (s : RedisCacheState)
    (key : String) (v : JVal) (ttl : Option Nat)
    (h : s.isAvailable = true) :
    RedisCache.get s key true = ⟨none, s, 1⟩ ∧
    RedisCache.set s key v ttl true = ⟨false, s, 1⟩ ∧
    RedisCache.delete s key true = ⟨false, s, 1⟩ ∧
    RedisCache.has s key true = ⟨false, s, 1⟩ ∧
    RedisCache.flush s true = ⟨(), s, 1⟩ := by
  simp [RedisCache.get, RedisCache.set, RedisCache.delete, RedisCache.has,
    RedisCache.flush, h]

/-- Witness for C5: a connected store with one stored key. -/
theorem per_operation_failure_no_transition_witness :
    connectedOne.isAvailable = true ∧
    (RedisCache.get connectedOne "k" true = ⟨none, connectedOne, 1⟩ ∧
     RedisCache.set connectedOne "k" (JVal.jnum 2) none true =
        ⟨false, connectedOne, 1⟩ ∧
     RedisCache.delete connectedOne "k" true = ⟨false, connectedOne, 1⟩ ∧
     RedisCache.has connectedOne "k" true = ⟨false, connectedOne, 1⟩ ∧
     RedisCache.flush connectedOne true = ⟨(), connectedOne, 1⟩) :=
  ⟨rfl, per_operation_failure_no_transition connectedOne "k" (JVal.jnum 2)
    none rfl⟩

/-- C3: a connection-level error signaled while the store is Connected
drops availability and immediately starts the periodic-reconnection timer,
without performing any connection attempt, scheduling any 5-second bounded
retry, or touching the attempt counter. -/
theorem connected_drop_periodic_mode (s : RedisCacheState)
    (h : s.isAvailable = true) :
    (RedisCache.errorEvent s).isAvailable = false ∧
    (RedisCache.errorEvent s).reconnectionTimer = true ∧
    (RedisCache.errorEvent s).totalAttempts = s.totalAttempts ∧
    (RedisCache.errorEvent s).retryPending = s.retryPending ∧
    (RedisCache.errorEvent s).connectionAttempts = s.connectionAttempts := by
  simp only [RedisCache.errorEvent, RedisCache.startReconnection, h]
  by_cases ht : s.reconnectionTimer <;> simp [ht]

/-- Witness for C3: a connected store that has never retried. -/
theorem connected_drop_periodic_mode_witness :
    connectedEmpty.isAvailable = true ∧
    ((RedisCache.errorEvent connectedEmpty).isAvailable = false ∧
     (RedisCache.errorEvent connectedEmpty).reconnectionTimer = true ∧
     (RedisCache.errorEvent connectedEmpty).totalAttempts =
        connectedEmpty.totalAttempts ∧
     (RedisCache.errorEvent connectedEmpty).retryPending =
        connectedEmpty.retryPending ∧
     (RedisCache.errorEvent connectedEmpty).connectionAttempts =
        connectedEmpty.connectionAttempts) :=
  ⟨rfl, connected_drop_periodic_mode connectedEmpty rfl⟩

/-- C2: (i) when the last of the `maxConnectionAttempts = 3` bounded
attempts fails, no further 5-second retry is scheduled and the recurring
30-second periodic timer is active; (ii) a `connect` entered with the
counter already exhausted performs no attempt and merely (re)starts the
periodic timer; (iii) every periodic tick taken while not Connected resets
the attempt counter to 0 and re-enters the bounded-retry connect phase,
performing exactly one fresh connection attempt per tick. -/
theorem bounded_retry_then_periodic (s : RedisCacheState) (success : Bool) :
    (s.connectionAttempts + 1 = maxConnectionAttempts →
      (RedisCache.connectStep s false).retryPending = s.retryPending ∧
      (RedisCache.connectStep s false).reconnectionTimer = true) ∧
    (s.connectionAttempts ≥ maxConnectionAttempts →
      RedisCache.connectStep s success = RedisCache.startReconnection s) ∧
    (s.reconnectionTimer = true → s.isAvailable = false →
      RedisCache.intervalTick s success =
        RedisCache.connectStep { s with connectionAttempts := 0 } success ∧
      (RedisCache.intervalTick s success).totalAttempts =
        s.totalAttempts + 1) := by
  refine ⟨fun hlast => ?_, fun hexh => ?_, fun htimer hunavail => ?_⟩
  · have h1 : ¬ s.connectionAttempts ≥ maxConnectionAttempts := by omega
    have h2 : ¬ s.connectionAttempts + 1 < maxConnectionAttempts := by omega
    simp only [RedisCache.connectStep, RedisCache.startReconnection,
      h1, h2, if_false, if_neg h1, if_neg h2]
    by_cases ht : s.reconnectionTimer <;> simp [ht]
  · simp [RedisCache.connectStep, hexh]
  · have hguard : ¬ (0 : Nat) ≥ maxConnectionAttempts := by
      simp [maxConnectionAttempts]
    constructor
    · simp [RedisCache.intervalTick, htimer, hunavail]
    · simp only [RedisCache.intervalTick, htimer, hunavail]
      simp only [RedisCache.connectStep, RedisCache.startReconnection]
      by_cases hs : success <;>
        simp [hguard, maxConnectionAttempts, hs]

/-- Witness for C2: the three parts at concrete states — a third failed
attempt, a connect on an exhausted counter, and a periodic tick. -/
theorem bounded_retry_then_periodic_witness :
    (twoFailedState.connectionAttempts + 1 = maxConnectionAttempts ∧
      (RedisCache.connectStep twoFailedState false).retryPending =
        twoFailedState.retryPending ∧
      (RedisCache.connectStep twoFailedState false).reconnectionTimer =
        true) ∧
    (exhaustedState.connectionAttempts ≥ maxConnectionAttempts ∧
      RedisCache.connectStep exhaustedState false =
        RedisCache.startReconnection exhaustedState) ∧
    (exhaustedState.reconnectionTimer = true ∧
      exhaustedState.isAvailable = false ∧
      RedisCache.intervalTick exhaustedState false =
        RedisCache.connectStep
          { exhaustedState with connectionAttempts := 0 } false ∧
      (RedisCache.intervalTick exhaustedState false).totalAttempts =
        exhaustedState.totalAttempts + 1) :=
  ⟨⟨by decide,
    (bounded_retry_then_periodic twoFailedState false).1 (by decide)⟩,
   ⟨by decide,
    (bounded_retry_then_periodic exhaustedState false).2.1 (by decide)⟩,
   by decide, by decide,
   (bounded_retry_then_periodic exhaustedState false).2.2 (by decide)
     (by decide)⟩

/-- C4 (code evaluated at the failing input): `disconnect` clears only the
periodic `setInterval`; the 5-second bounded-retry `setTimeout` scheduled
by `connect`'s catch branch is never stored by the class, so it survives
teardown.  Trace: the constructor's first connect attempt fails (a retry is
now pending), `disconnect` runs (client quit, retry still pending), then
the pending retry fires — a further connection attempt is performed after
teardown, a fresh client replaces the quit one, and another retry is
scheduled. -/
theorem retry_timer_survives_disconnect :
    (RedisCache.connectStep RedisCache.initialState false).retryPending =
      true ∧
    (RedisCache.disconnect
      (RedisCache.connectStep RedisCache.initialState false)).retryPending =
      true ∧
    (RedisCache.disconnect
      (RedisCache.connectStep RedisCache.initialState false)).closed =
      true ∧
    (RedisCache.retryFire
      (RedisCache.disconnect
        (RedisCache.connectStep RedisCache.initialState false))
      false).totalAttempts =
      (RedisCache.disconnect
        (RedisCache.connectStep RedisCache.initialState false)).totalAttempts
        + 1 ∧
    (RedisCache.retryFire
      (RedisCache.disconnect
        (RedisCache.connectStep RedisCache.initialState false))
      false).closed = false ∧
    (RedisCache.retryFire
      (RedisCache.disconnect
        (RedisCache.connectStep RedisCache.initialState false))
      false).retryPending = true := by
  decide

/-- C6: `getOrSet` on a hit returns the cached value and never invokes the
callback; on a miss it invokes the callback exactly once, stores the result
under the key (so a subsequent `get` finds it) and returns it.  The local
`set` it delegates to reports success unconditionally, and its boolean is
discarded either way. -/
theorem getOrSet_hit_miss (c : LocalCache) (key : String)
    (callback : Unit → JVal) (ttl : Option Nat) :
    (∀ v, CacheService.get c key = some v →
      CacheService.getOrSet c key callback ttl = (v, c, 0)) ∧
    (CacheService.get c key = none →
      CacheService.getOrSet c key callback ttl =
        (callback (), (CacheService.set c key (callback ()) ttl).2, 1) ∧
      CacheService.get
        (CacheService.getOrSet c key callback ttl).2.1 key =
        some (callback ())) := by
  constructor
  · intro v hv
    unfold CacheService.getOrSet
    rw [hv]
  · intro hv
    have hgo : CacheService.getOrSet c key callback ttl =
        (callback (), (CacheService.set c key (callback ()) ttl).2, 1) := by
      unfold CacheService.getOrSet
      rw [hv]
    refine ⟨hgo, ?_⟩
    rw [hgo]
    simp [CacheService.set, CacheService.get, List.find?_cons]

/-- Witness for C6: a hit on a one-entry cache and a miss on the empty
cache. -/
theorem getOrSet_hit_miss_witness :
    (CacheService.get [⟨"k", JVal.jnum 5, 3600⟩] "k" = some (JVal.jnum 5) ∧
      CacheService.getOrSet [⟨"k", JVal.jnum 5, 3600⟩] "k"
        (fun _ => JVal.jnum 7) none =
        (JVal.jnum 5, [⟨"k", JVal.jnum 5, 3600⟩], 0)) ∧
    (CacheService.get ([] : LocalCache) "k" = none ∧
      (CacheService.getOrSet ([] : LocalCache) "k"
          (fun _ => JVal.jnum 7) none =
        (JVal.jnum 7,
          (CacheService.set ([] : LocalCache) "k" (JVal.jnum 7) none).2,
          1) ∧
       CacheService.get
        (CacheService.getOrSet ([] : LocalCache) "k"
          (fun _ => JVal.jnum 7) none).2.1 "k" = some (JVal.jnum 7))) :=
  ⟨⟨rfl,
    (getOrSet_hit_miss [⟨"k", JVal.jnum 5, 3600⟩] "k"
      (fun _ => JVal.jnum 7) none).1 (JVal.jnum 5) rfl⟩,
   rfl,
   (getOrSet_hit_miss ([] : LocalCache) "k"
      (fun _ => JVal.jnum 7) none).2 rfl⟩

/-- C7 counterexample: a local `set` that omits the ttl stores the entry
with a 3600-second ttl, not the 300 seconds the claim states — the
NodeCache's `stdTTL: 300` is never consulted because `set` always passes
`ttl ?? 3600`. -/
theorem local_default_ttl_counterexample :
    (CacheService.set ([] : LocalCache) "k" (JVal.jnum 1) none).2 =
      [⟨"k", JVal.jnum 1, 3600⟩] ∧ (3600 : Nat) ≠ 300 := by
  decide

/-- C7 amended: a `set` call that omits the ttl argument applies a default
time-to-live of 3600 seconds in the RemoteCacheStore and also 3600 seconds
in the LocalCacheStore. -/
theorem default_ttl_applied (s : RedisCacheState) (c : LocalCache)
    (key : String) (v : JVal) (h : s.isAvailable = true) :
    RedisCache.set s key v none false =
      ⟨true, { s with conn := s.conn.insert key (stringify v) 3600 }, 1⟩ ∧
    (CacheService.set c key v none).2 =
      ⟨key, v, 3600⟩ :: List.filter (fun e => e.key ≠ key) c := by
  simp [RedisCache.set, CacheService.set, defaultTtl, h]

/-- Witness for C7's amended claim: a connected remote store and the empty
local store. -/
theorem default_ttl_applied_witness :
    connectedEmpty.isAvailable = true ∧
    (RedisCache.set connectedEmpty "k" (JVal.jnum 1) none false =
      ⟨true,
        { connectedEmpty with
          conn := RedisStore.insert connectedEmpty.conn "k"
            (stringify (JVal.jnum 1)) 3600 },
        1⟩ ∧
     (CacheService.set ([] : LocalCache) "k" (JVal.jnum 1) none).2 =
      ⟨"k", JVal.jnum 1, 3600⟩ ::
        List.filter (fun e => e.key ≠ "k") ([] : LocalCache)) :=
  ⟨rfl, default_ttl_applied connectedEmpty ([] : LocalCache) "k"
    (JVal.jnum 1) rfl⟩

/-- C8 counterexample: the local `CacheService.delete` returns `this.cache.
del(key)` — the number of deleted entries — so its return value does
depend on whether the key was present: 1 on a one-entry store holding the
key, 0 on the same store without it. -/
theorem delete_reports_count_counterexample :
    (CacheService.delete [⟨"k", JVal.jnum 1, 3600⟩] "k").1 = 1 ∧
    (CacheService.delete ([] : LocalCache) "k").1 = 0 ∧
    (1 : Nat) ≠ 0 := by
  decide

/-- C8 amended: deleting an absent key is not an error and both deletes are
idempotent on state; the RemoteCacheStore's `delete` reports only the
success of the attempt (`isAvailable && !fail`), independent of the key's
presence, while the LocalCacheStore's `delete` returns the number of
deleted entries (1 when the key was present, 0 when it was not), which
does depend on presence; a repeated local delete returns 0. -/
theorem delete_idempotent_semantics (s : RedisCacheState) (c : LocalCache)
    (key : String) (fail : Bool) :
    (RedisCache.delete s key fail).ret = (s.isAvailable && !fail) ∧
    (RedisCache.delete (RedisCache.delete s key false).st key false).st =
      (RedisCache.delete s key false).st ∧
    (CacheService.delete (CacheService.delete c key).2 key).2 =
      (CacheService.delete c key).2 ∧
    (CacheService.delete (CacheService.delete c key).2 key).1 = 0 ∧
    (CacheService.delete c key).1 =
      (if CacheService.has c key then 1 else 0) := by
  refine ⟨?_, ?_, ?_, ?_, ?_⟩
  · by_cases ha : s.isAvailable <;> by_cases hf : fail <;>
      simp [RedisCache.delete, ha, hf]
  · by_cases ha : s.isAvailable <;>
      simp [RedisCache.delete, RedisStore.remove, ha, List.filter_filter]
  · simp [CacheService.delete, List.filter_filter]
  · simp only [CacheService.delete]
    have hnone : List.find? (fun e => decide (e.key = key))
        (List.filter (fun e => decide (e.key ≠ key)) c) = none := by
      apply List.find?_eq_none.mpr
      intro e he
      simp only [List.mem_filter] at he
      simpa using he.2
    simp [hnone]
  · simp [CacheService.delete, CacheService.has]

/-- C9 counterexample: after the connected RemoteCacheStore stores the
value `null` under `"k"` (payload `"null"`), `has "k"` reports `true`
while `get "k"` returns absent — `JSON.parse("null")` is the value
`null`, which the caller of `Promise<T | null>` cannot tell from a miss. -/
theorem has_get_null_counterexample :
    (RedisCache.has
      (RedisCache.set connectedEmpty "k" JVal.jnull none false).st
      "k" false).ret = true ∧
    (RedisCache.get
      (RedisCache.set connectedEmpty "k" JVal.jnull none false).st
      "k" false).ret = none := by
  decide

/-- C9 amended: `has key` agrees with `get key` being present — on the
same state and the same per-call failure — provided every stored payload
is non-empty and deserializes to a non-null JSON value (which is the case
for every payload `set` produces from a non-null value). -/
theorem has_get_agree_on_good_payloads (s : RedisCacheState) (key : String)
    (fail : Bool) (hgood : ∀ e ∈ s.conn, goodPayload e.payload = true) :
    ((RedisCache.has s key fail).ret = true ↔
      (RedisCache.get s key fail).ret ≠ none) := by
  by_cases ha : s.isAvailable
  · by_cases hf : fail
    · simp [RedisCache.has, RedisCache.get, ha, hf]
    · simp only [RedisCache.has, RedisCache.get, ha, hf]
      cases hfind : List.find? (fun e => e.key = key) s.conn with
      | none =>
        simp [RedisStore.lookup, hfind]
      | some e =>
        have hmem : e ∈ s.conn := List.mem_of_find?_eq_some hfind
        have hg := hgood e hmem
        simp only [goodPayload, Bool.and_eq_true, bne_iff_ne, ne_eq] at hg
        obtain ⟨hne, hparse⟩ := hg
        cases hp : parseJson e.payload with
        | none => rw [hp] at hparse; simp at hparse
        | some v =>
          rw [hp] at hparse
          have hvnull : v ≠ JVal.jnull := by
            intro hv
            rw [hv] at hparse
            simp at hparse
          simp [RedisStore.lookup, hfind, hne, hp, hvnull]
  · simp [RedisCache.has, RedisCache.get, ha]

/-- Witness for C9's amended claim: a connected store holding one key with
the payload `"true"`. -/
theorem has_get_agree_witness :
    (∀ e ∈ connectedOne.conn, goodPayload e.payload = true) ∧
    ((RedisCache.has connectedOne "k" false).ret = true ↔
      (RedisCache.get connectedOne "k" false).ret ≠ none) :=
  ⟨by decide, has_get_agree_on_good_payloads connectedOne "k" false
    (by decide)⟩

/-- C10: for the connected RemoteCacheStore an explicit ttl of 0 is
discarded by `ttl || this.defaultTtl` — `set key v (some 0)` is the very
same operation as `set key v none`, and (absent a per-call failure) it
stores the entry with the default 3600-second expiry. -/
theorem set_zero_ttl_uses_default (s : RedisCacheState) (key : String)
    (v : JVal) (fail : Bool) :
    RedisCache.set s key v (some 0) fail = RedisCache.set s key v none fail ∧
    (s.isAvailable = true → fail = false →
      RedisCache.set s key v (some 0) fail =
        ⟨true,
          { s with conn := s.conn.insert key (stringify v) defaultTtl },
          1⟩) := by
  constructor
  · simp [RedisCache.set]
  · intro h hf
    subst hf
    simp [RedisCache.set, h]

/-- Witness for C10: a connected store, no per-call failure. -/
theorem set_zero_ttl_uses_default_witness :
    (RedisCache.set connectedEmpty "k" (JVal.jnum 1) (some 0) false =
      RedisCache.set connectedEmpty "k" (JVal.jnum 1) none false) ∧
    (connectedEmpty.isAvailable = true ∧
      RedisCache.set connectedEmpty "k" (JVal.jnum 1) (some 0) false =
        ⟨true,
          { connectedEmpty with
            conn := RedisStore.insert connectedEmpty.conn "k"
              (stringify (JVal.jnum 1)) defaultTtl },
          1⟩) :=
  ⟨(set_zero_ttl_uses_default connectedEmpty "k" (JVal.jnum 1) false).1,
   rfl,
   (set_zero_ttl_uses_default connectedEmpty "k" (JVal.jnum 1) false).2
     rfl rfl⟩
